import Mathlib

/-!
Shallow embedding of the QA-BOT repository: a browser video question-answering
app.  The embedding covers the ask-question edge function (`serve` handler),
the Index page controller (`handleUrlChange`, `handleQuestionSubmit`,
`isValidYouTubeUrl`), the VideoSuggestions carousel (`extractVideoId`,
`fetchSuggestedVideos`, `handleNext`, `handlePrevious`) and the components
`YouTubePlayer` (`getVideoId`) and `QuestionInput` (`handleSubmit`,
`handleKeyPress`).

JSON values are modelled by an inductive type; JSON numbers are modelled as
integers (every number appearing in the verified properties is integral, and
NaN never arises from JSON parsing).  JavaScript `undefined` is modelled as
`Option.none` wherever a possibly-absent value flows.  Network effects are
modelled by passing the outcome of the single `fetch` performed by each
handler as an explicit argument, so every handler is a pure state transformer.
-/

/-- A parsed JSON value.  Numbers are modelled as integers. -/
inductive JsonValue where
  | null
  | bool (b : Bool)
  | num (n : Int)
  | str (s : String)
  | arr (elems : List JsonValue)
  | obj (fields : List (String × JsonValue))

namespace JsonValue

/-- Property lookup on a JS object built by JSON.parse: for a duplicated key
the last occurrence wins, so the scan prefers later fields. -/
def getField : List (String × JsonValue) → String → Option JsonValue
  | [], _ => none
  | (k, v) :: rest, key =>
    match getField rest key with
    | some w => some w
    | none => if k = key then some v else none

/-- JS truthiness of a defined JSON value: objects and arrays are always
truthy, `0`, `""`, `false` and `null` are falsy. -/
def jsTruthy : JsonValue → Bool
  | .null => false
  | .bool b => b
  | .num n => n != 0
  | .str s => s != ""
  | .arr _ => true
  | .obj _ => true

end JsonValue

/-- JS truthiness of a possibly-undefined value (`none` models `undefined`). -/
def jsTruthyOpt : Option JsonValue → Bool
  | none => false
  | some v => v.jsTruthy

/-- `typeof x === 'string'` on a possibly-undefined value. -/
def isStringOpt : Option JsonValue → Bool
  | some (.str _) => true
  | _ => false

/-- Member access `data?.k` (and plain `o.k` on a value already known not to
be null or undefined): a property lookup on objects, `undefined` on every
other value. -/
def optChainField : JsonValue → String → Option JsonValue
  | .obj fs, k => JsonValue.getField fs k
  | _, _ => none

/-- Result of `await r.json()`: either the parse throws (`malformed`, carrying
the thrown error's message) or it yields a JSON value. -/
inductive ParsedJson where
  | malformed (msg : String)
  | value (v : JsonValue)

/-! ## The ask-question edge function (`serve` handler) -/

namespace AskFunction

/-- The parts of the incoming request the handler reads: its HTTP method and
the result of parsing its body as JSON. -/
structure ProxyRequest where
  method : String
  body : ParsedJson

/-- Outcome of the single upstream call to the AI gateway: the fetch promise
rejects, or an HTTP response arrives with its `ok` flag, status, and the
result of parsing its body. -/
inductive UpstreamResult where
  | netThrow (msg : String)
  | httpResponse (ok : Bool) (status : Nat) (body : ParsedJson)

/-- The observable outcome of one handler invocation: the response status and
JSON body (none models a null body), plus whether the upstream gateway was
contacted. -/
structure HandlerResult where
  status : Nat
  body : Option JsonValue
  upstreamCalled : Bool

/-- The catch-all error response: HTTP 500 with `{error: msg}`. -/
def errorResponse (msg : String) : HandlerResult :=
  { status := 500, body := some (.obj [("error", .str msg)]), upstreamCalled := false }

/-- Optional-chaining index `x?.[0]`: array head, property "0" of an object,
first character of a string, `undefined` otherwise. -/
def optChainIdx0 : Option JsonValue → Option JsonValue
  | some (.arr l) => l.head?
  | some (.obj fs) => JsonValue.getField fs "0"
  | some (.str s) => s.data.head?.map (fun c => .str (String.mk [c]))
  | _ => none

/-- Optional-chaining member `x?.k`. -/
def optChainKey (k : String) : Option JsonValue → Option JsonValue
  | some (.obj fs) => JsonValue.getField fs k
  | _ => none

/-- The `serve` handler of the ask-question function.  `apiKey` is
`Deno.env.get('LOVABLE_API_KEY')`; `upstream` is the outcome of the gateway
call, consulted only if control reaches the `fetch`. -/
def serveHandler (apiKey : Option String) (req : ProxyRequest) (upstream : UpstreamResult) :
    HandlerResult :=
  if req.method = "OPTIONS" then
    { status := 200, body := none, upstreamCalled := false }
  else
    match req.body with
    | .malformed msg => errorResponse msg
    | .value .null =>
      -- `const { question } = await req.json()` throws a TypeError on null
      errorResponse "Cannot destructure property 'question' of 'await req.json()' as it is null."
    | .value v =>
      let question := optChainField v "question"
      if !jsTruthyOpt question || !isStringOpt question then
        errorResponse "Question is required and must be a string"
      else
        match apiKey with
        | none => errorResponse "LOVABLE_API_KEY is not configured"
        | some _ =>
          match upstream with
          | .netThrow msg => { errorResponse msg with upstreamCalled := true }
          | .httpResponse ok status body =>
            if !ok then
              { errorResponse ("AI API error: " ++ toString status) with upstreamCalled := true }
            else
              match body with
              | .malformed msg => { errorResponse msg with upstreamCalled := true }
              | .value .null =>
                -- `data.choices` throws a TypeError when data is null
                { errorResponse "Cannot read properties of null (reading 'choices')" with
                    upstreamCalled := true }
              | .value d =>
                let answer :=
                  optChainKey "content" (optChainKey "message" (optChainIdx0 (optChainField d "choices")))
                if !jsTruthyOpt answer then
                  { errorResponse "No answer received from AI" with upstreamCalled := true }
                else
                  { status := 200,
                    body := some (.obj [("answer", answer.getD .null)]),
                    upstreamCalled := true }

/-- A request body that does not carry a non-empty string `question`: the
parse throws, or the parsed value has no truthy string `question` field. -/
def lacksStringQuestion : ParsedJson → Bool
  | .malformed _ => true
  | .value v =>
    match optChainField v "question" with
    | some (.str s) => s = ""
    | _ => true

end AskFunction

/-! ## Shared frontend pieces -/

/-- A line terminator for the JS regex `.` metacharacter (no `s` flag):
`.` matches any character except these. -/
def isLineTerm (c : Char) : Bool :=
  c = '\n' || c = '\r' || c = '\u2028' || c = '\u2029'

/-- A character stripped by `String.prototype.trim`: the ECMAScript
WhiteSpace and LineTerminator sets. -/
def isJsSpace (c : Char) : Bool :=
  c = '\t' || c = '\n' || c = '\u000B' || c = '\u000C' || c = '\r' || c = ' ' ||
  c = '\u00A0' || c = '\u1680' || ('\u2000' ≤ c && c ≤ '\u200A') || c = '\u2028' ||
  c = '\u2029' || c = '\u202f' || c = '\u205f' || c = '\u3000' || c = '\ufeff'

/-- `String.prototype.trim`: drop leading and trailing JS whitespace. -/
def jsTrim (s : String) : String :=
  String.mk (((s.data.dropWhile isJsSpace).reverse.dropWhile isJsSpace).reverse)

/-- Outcome of one frontend `fetch`: the promise rejects with an error
message, or a response arrives with its `ok` flag, status and parsed body. -/
inductive HttpResult where
  | thrown (msg : String)
  | response (ok : Bool) (status : Nat) (body : ParsedJson)

/-! ## YouTubePlayer: `getVideoId`

`getVideoId` matches the single regex
`^.*(youtu.be\/|v\/|u\/\w\/|embed\/|watch\?v=|&v=)([^#&?]*).*` against the
url and returns the second capture when it has exactly 11 characters.  Since
the six alternatives begin with pairwise distinct characters, at most one of
them can match at a given position, and the greedy leading `^.*` selects the
rightmost position not past a line terminator at which one matches.  The
second capture then greedily takes the following run of characters other than
`#`, `&`, `?`, and the trailing `.*` is unconstrained. -/

namespace YouTubePlayer

/-- The `\w` character class of the JS regex. -/
def isWordChar (c : Char) : Bool := c.isAlpha || c.isDigit || c = '_'

/-- Number of characters consumed when the alternation
`(youtu.be\/|v\/|u\/\w\/|embed\/|watch\?v=|&v=)` matches at the head of the
list (the `.` in `youtu.be/` is any non-line-terminator). -/
def altLen : List Char → Option Nat
  | 'y' :: 'o' :: 'u' :: 't' :: 'u' :: c :: 'b' :: 'e' :: '/' :: _ =>
    if isLineTerm c then none else some 9
  | 'v' :: '/' :: _ => some 2
  | 'u' :: '/' :: c :: '/' :: _ => if isWordChar c then some 4 else none
  | 'e' :: 'm' :: 'b' :: 'e' :: 'd' :: '/' :: _ => some 6
  | 'w' :: 'a' :: 't' :: 'c' :: 'h' :: '?' :: 'v' :: '=' :: _ => some 8
  | '&' :: 'v' :: '=' :: _ => some 3
  | _ => none

/-- Rightmost position (with the consumed length) at which the alternation
matches, among positions reachable by the greedy `^.*` (i.e. with no line
terminator strictly before them). -/
def lastAltFrom : List Char → Option (Nat × Nat)
  | [] => none
  | c :: rest =>
    let later :=
      if isLineTerm c then none
      else (lastAltFrom rest).map (fun p => (p.1 + 1, p.2))
    match later with
    | some p => some p
    | none => (altLen (c :: rest)).map (fun n => (0, n))

/-- `getVideoId` of YouTubePlayer.tsx. -/
def getVideoId (url : String) : Option String :=
  match lastAltFrom url.data with
  | none => none
  | some (i, n) =>
    let group2 := (url.data.drop (i + n)).takeWhile (fun c => c ≠ '#' && c ≠ '&' && c ≠ '?')
    if group2.length = 11 then some (String.mk group2) else none

end YouTubePlayer

/-! ## VideoSuggestions: `extractVideoId`, the fetch effect, pagination -/

namespace VideoSuggestions

/-- The `[a-zA-Z0-9_-]` character class of the extraction regexes. -/
def isIdChar (c : Char) : Bool := c.isAlpha || c.isDigit || c = '_' || c = '-'

/-- Match `([a-zA-Z0-9_-]{11})` at the head of the list: exactly the next 11
characters, all from the class. -/
def grab11 (l : List Char) : Option (List Char) :=
  let v := l.take 11
  if v.length = 11 && v.all isIdChar then some v else none

/-- Leftmost position at which `p` matches (JS `String.match` semantics for a
regex without alternation at top level). -/
def searchLeft (p : List Char → Option (List Char)) : List Char → Option (List Char)
  | [] => p []
  | l@(_ :: rest) =>
    match p l with
    | some r => some r
    | none => searchLeft p rest

/-- Match `[?&]v=([a-zA-Z0-9_-]{11})` at the head of the list. -/
def matchQueryV : List Char → Option (List Char)
  | c :: 'v' :: '=' :: rest => if c = '?' || c = '&' then grab11 rest else none
  | _ => none

/-- Match a literal followed by `([a-zA-Z0-9_-]{11})` at the head of the
list. -/
def matchAfterLit (lit : List Char) (l : List Char) : Option (List Char) :=
  if lit.isPrefixOf l then grab11 (l.drop lit.length) else none

/-- `extractVideoId` of VideoSuggestions.tsx: the three patterns are tried in
order, each searched over the whole url; the first capture found wins. -/
def extractVideoId (url : String) : Option String :=
  match searchLeft matchQueryV url.data with
  | some v => some (String.mk v)
  | none =>
    match searchLeft (matchAfterLit "youtu.be/".data) url.data with
    | some v => some (String.mk v)
    | none =>
      match searchLeft (matchAfterLit "youtube.com/embed/".data) url.data with
      | some v => some (String.mk v)
      | none => none

/-- The component state touched by the suggested-videos effect.  The list
elements are stored exactly as delivered by the backend (the code performs no
per-element validation), so they are kept as JSON values. -/
structure SuggState where
  startIndex : Nat
  suggestedVideos : List JsonValue
  isLoading : Bool

/-- Outcome of the `fetch` performed by the effect: rejection, or a response
with its `ok` flag and parsed body. -/
inductive FetchResult where
  | thrown
  | response (ok : Bool) (body : ParsedJson)

/-- `Array.isArray`. -/
def isArrayVal : JsonValue → Bool
  | .arr _ => true
  | _ => false

/-- The list of elements of a JSON array (unused on other values). -/
def toElems : JsonValue → List JsonValue
  | .arr l => l
  | _ => []

/-- `fetchSuggestedVideos`: sets `isLoading`, performs the fetch, and only
when the response is ok and the body parses to a value with a truthy array
`videos` field stores the videos and resets `startIndex` to 0; the `finally`
clears `isLoading`. -/
def fetchSuggestedVideos (s : SuggState) (res : FetchResult) : SuggState :=
  let s1 := { s with isLoading := true }
  let s2 :=
    match res with
    | .thrown => s1
    | .response ok body =>
      if !ok then s1
      else
        match body with
        | .malformed _ => s1
        | .value data =>
          match optChainField data "videos" with
          | some v =>
            if v.jsTruthy && isArrayVal v then
              { s1 with suggestedVideos := toElems v, startIndex := 0 }
            else s1
          | none => s1
  { s2 with isLoading := false }

/-- Characterisation (from the spec side) of the fetch outcomes on which the
code adopts a new list: response ok and body a value with a truthy array
`videos` field. -/
def fetchDeliversVideos : FetchResult → Bool
  | .response true (.value data) =>
    match optChainField data "videos" with
    | some v => v.jsTruthy && isArrayVal v
    | none => false
  | _ => false

/-- `VIDEOS_TO_SHOW = 3`. -/
def VIDEOS_TO_SHOW : Int := 3

/-- `handleNext`: advance by one, wrapping to 0 once at or past
`length - VIDEOS_TO_SHOW`.  Indices are JS numbers, modelled as integers. -/
def handleNext (len prev : Int) : Int :=
  if prev ≥ len - VIDEOS_TO_SHOW then 0 else prev + 1

/-- `handlePrevious`: retreat by one, wrapping to `length - VIDEOS_TO_SHOW`
at 0. -/
def handlePrevious (len prev : Int) : Int :=
  if prev = 0 then len - VIDEOS_TO_SHOW else prev - 1

/-- `n` successive clicks of the next arrow. -/
def iterNext (len : Int) : Nat → Int → Int
  | 0, s => s
  | n + 1, s => iterNext len n (handleNext len s)

/-- `n` successive clicks of the previous arrow. -/
def iterPrev (len : Int) : Nat → Int → Int
  | 0, s => s
  | n + 1, s => iterPrev len n (handlePrevious len s)

end VideoSuggestions

/-! ## The Index page controller -/

namespace IndexPage

/-- The default video loaded on startup. -/
def DEFAULT_VIDEO_URL : String := "https://www.youtube.com/watch?v=dQw4w9WgXcQ"

/-- The mutable page state owned by the Index component.  `answer` is kept as
a JSON value because `setAnswer(data.answer)` stores whatever truthy value
the backend delivered; the empty answer is `JsonValue.str ""`. -/
structure PageState where
  answer : JsonValue
  isLoading : Bool
  videoUrl : String
  urlInput : String

/-- Match `(www\.)?(youtube\.com|youtu\.be)\/.+` at the head of the list;
the second disjunct is the backtracking branch in which the optional group
matches nothing. -/
def matchDomainSlashRest : List Char → Bool
  | 'y' :: 'o' :: 'u' :: 't' :: 'u' :: 'b' :: 'e' :: '.' :: 'c' :: 'o' :: 'm' :: '/' :: c :: _ =>
    !isLineTerm c
  | 'y' :: 'o' :: 'u' :: 't' :: 'u' :: '.' :: 'b' :: 'e' :: '/' :: c :: _ => !isLineTerm c
  | _ => false

/-- Match the optional `www.` then the domain alternation. -/
def matchAfterScheme (l : List Char) : Bool :=
  match l with
  | 'w' :: 'w' :: 'w' :: '.' :: rest => matchDomainSlashRest rest || matchDomainSlashRest l
  | _ => matchDomainSlashRest l

/-- Match `^https?:\/\/` and return the remainder. -/
def matchScheme : List Char → Option (List Char)
  | 'h' :: 't' :: 't' :: 'p' :: 's' :: ':' :: '/' :: '/' :: rest => some rest
  | 'h' :: 't' :: 't' :: 'p' :: ':' :: '/' :: '/' :: rest => some rest
  | _ => none

/-- The first validation pattern `^https?:\/\/(www\.)?(youtube\.com|youtu\.be)\/.+`. -/
def pattern1 (l : List Char) : Bool :=
  match matchScheme l with
  | some rest => matchAfterScheme rest
  | none => false

/-- Match `youtube\.com\/embed\/.+` at the head of the list. -/
def matchEmbedRest : List Char → Bool
  | 'y' :: 'o' :: 'u' :: 't' :: 'u' :: 'b' :: 'e' :: '.' :: 'c' :: 'o' :: 'm' :: '/' ::
      'e' :: 'm' :: 'b' :: 'e' :: 'd' :: '/' :: c :: _ => !isLineTerm c
  | _ => false

/-- The second validation pattern `^https?:\/\/youtube\.com\/embed\/.+`. -/
def pattern2 (l : List Char) : Bool :=
  match matchScheme l with
  | some rest => matchEmbedRest rest
  | none => false

/-- `isValidYouTubeUrl`: `patterns.some(p => p.test(url))`. -/
def isValidYouTubeUrl (url : String) : Bool :=
  pattern1 url.data || pattern2 url.data

/-- The state written synchronously when a valid url submission starts:
`setIsLoading(true); setAnswer("")`. -/
def urlSubmitStart (s : PageState) : PageState :=
  { s with isLoading := true, answer := .str "" }

/-- `handleUrlChange`: validate the trimmed input (empty and non-matching
input produce a toast and leave the state alone), then POST to
`/process-video`; only a response with ok status, parseable body and truthy
`success` field adopts the new url and clears the input; the `finally`
clears `isLoading`. -/
def handleUrlChange (s : PageState) (res : HttpResult) : PageState :=
  let trimmedUrl := jsTrim s.urlInput
  if trimmedUrl = "" then s
  else if !isValidYouTubeUrl trimmedUrl then s
  else
    let s1 := urlSubmitStart s
    let s2 :=
      match res with
      | .thrown _ => s1
      | .response ok _ body =>
        if !ok then s1
        else
          match body with
          | .malformed _ => s1
          | .value data =>
            if jsTruthyOpt (optChainField data "success") then
              { s1 with videoUrl := trimmedUrl, urlInput := "" }
            else s1
    { s2 with isLoading := false }

/-- The fetch outcomes on which `handleUrlChange` takes its success branch. -/
def processSucceeds : HttpResult → Bool
  | .response true _ (.value data) => jsTruthyOpt (optChainField data "success")
  | _ => false

/-- `handleQuestionSubmit`: clear the previous answer and set the loading
flag, POST to `/ask-question`; only a response with ok status, parseable body
and truthy `answer` field stores the answer; the `finally` clears
`isLoading`.  The submitted question only flows into the request body. -/
def handleQuestionSubmit (s : PageState) (question : String) (res : HttpResult) : PageState :=
  let s1 := { s with isLoading := true, answer := .str "" }
  let s2 :=
    match res with
    | .thrown _ => s1
    | .response ok _ body =>
      if !ok then s1
      else
        match body with
        | .malformed _ => s1
        | .value data =>
          match optChainField data "answer" with
          | some a => if a.jsTruthy then { s1 with answer := a } else s1
          | none => s1
  { s2 with isLoading := false }

/-- The fetch outcomes on which `handleQuestionSubmit` stores an answer. -/
def askSucceeds : HttpResult → Bool
  | .response true _ (.value data) => jsTruthyOpt (optChainField data "answer")
  | _ => false

end IndexPage

/-! ## QuestionInput -/

namespace QuestionInput

/-- The fields of a React keyboard event read by the component (plus the
other modifier flags, needed to state the modifier-key property). -/
structure KeyEvent where
  key : String
  shiftKey : Bool
  ctrlKey : Bool
  altKey : Bool
  metaKey : Bool

/-- The component state: the text of the question field. -/
structure InputState where
  question : String

/-- `handleSubmit`: when the trimmed question is non-empty and no request is
loading, emit the trimmed question and clear the field; otherwise do
nothing.  The second component is the question passed to `onSubmit`, if
any. -/
def handleSubmit (isLoading : Bool) (s : InputState) : InputState × Option String :=
  if jsTrim s.question != "" && !isLoading then
    ({ question := "" }, some (jsTrim s.question))
  else (s, none)

/-- `handleKeyPress`: on Enter without Shift, prevent the default and run
`handleSubmit`. -/
def handleKeyPress (isLoading : Bool) (s : InputState) (e : KeyEvent) : InputState × Option String :=
  if e.key == "Enter" && !e.shiftKey then handleSubmit isLoading s
  else (s, none)

/-- Whether any modifier key is held in the event (the claim's notion; the
code only consults `shiftKey`). -/
def hasModifier (e : KeyEvent) : Bool :=
  e.shiftKey || e.ctrlKey || e.altKey || e.metaKey

end QuestionInput

/-! ## Theorems -/

/-- C7: on the literal input `"https://www.youtube.com/watch?v=dQw4w9WgXcQ"`,
both the player's `getVideoId` and the suggestions' `extractVideoId` return
exactly `"dQw4w9WgXcQ"`. -/
theorem extract_id_concrete :
    YouTubePlayer.getVideoId "https://www.youtube.com/watch?v=dQw4w9WgXcQ" = some "dQw4w9WgXcQ" ∧
    VideoSuggestions.extractVideoId "https://www.youtube.com/watch?v=dQw4w9WgXcQ" =
      some "dQw4w9WgXcQ" :=
  ⟨by decide, by decide⟩

/-- C2: the two extraction functions disagree.  On a `watch?v=` url whose
token has 13 characters, `getVideoId` rejects (its capture runs to the end of
the query value and has length 13), while `extractVideoId` accepts the first
11 characters of the token. -/
theorem video_id_extractors_disagree :
    YouTubePlayer.getVideoId "https://www.youtube.com/watch?v=dQw4w9WgXcQxx" = none ∧
    VideoSuggestions.extractVideoId "https://www.youtube.com/watch?v=dQw4w9WgXcQxx" =
      some "dQw4w9WgXcQ" :=
  ⟨by decide, by decide⟩

/-- C1 counterexample: for the list length L = 5 (which exceeds the window
size 3) and the valid start index 0, five clicks of next land on 2, not back
on 0, and five clicks of previous land on 1. -/
theorem pagination_wrap_L_times_cex :
    (3 : Int) < 5 ∧ (0 : Int) ≤ 0 ∧ (0 : Int) ≤ 5 - 3 ∧
    VideoSuggestions.iterNext 5 5 0 ≠ 0 ∧ VideoSuggestions.iterPrev 5 5 0 ≠ 0 :=
  ⟨by decide, by decide, by decide, by decide, by decide⟩

/-- The next arrow acts as +1 modulo `len - 2` on the valid start indices:
`n` clicks from `s` land on `(s + n) % (len - 2)`. -/
theorem iterNext_emod (len : Int) (hlen : 3 < len) :
    ∀ (n : Nat) (s : Int), 0 ≤ s → s ≤ len - 3 →
      VideoSuggestions.iterNext len n s = (s + n) % (len - 2) := by
  intro n
  induction n with
  | zero =>
    intro s h0 h3
    simp only [VideoSuggestions.iterNext, Nat.cast_zero, add_zero]
    exact (Int.emod_eq_of_lt h0 (by omega)).symm
  | succ n ih =>
    intro s h0 h3
    simp only [VideoSuggestions.iterNext]
    push_cast
    simp only [VideoSuggestions.handleNext, VideoSuggestions.VIDEOS_TO_SHOW]
    by_cases hc : s ≥ len - 3
    · rw [if_pos hc, ih 0 le_rfl (by omega)]
      have h1 : s + ((n : Int) + 1) = (0 + (n : Int)) + (len - 2) * 1 := by omega
      rw [h1, Int.add_mul_emod_self_left]
    · rw [if_neg hc, ih (s + 1) (by omega) (by omega)]
      have h2 : (s + 1) + (n : Int) = s + ((n : Int) + 1) := by ring
      rw [h2]

/-- The previous arrow acts as -1 modulo `len - 2` on the valid start
indices. -/
theorem iterPrev_emod (len : Int) (hlen : 3 < len) :
    ∀ (n : Nat) (s : Int), 0 ≤ s → s ≤ len - 3 →
      VideoSuggestions.iterPrev len n s = (s - n) % (len - 2) := by
  intro n
  induction n with
  | zero =>
    intro s h0 h3
    simp only [VideoSuggestions.iterPrev, Nat.cast_zero, sub_zero]
    exact (Int.emod_eq_of_lt h0 (by omega)).symm
  | succ n ih =>
    intro s h0 h3
    simp only [VideoSuggestions.iterPrev]
    push_cast
    simp only [VideoSuggestions.handlePrevious, VideoSuggestions.VIDEOS_TO_SHOW]
    by_cases hc : s = 0
    · rw [if_pos hc, ih (len - 3) (by omega) (by omega), hc]
      have h1 : (len - 3) - (n : Int) = (0 - ((n : Int) + 1)) + (len - 2) * 1 := by ring
      rw [h1, Int.add_mul_emod_self_left]
    · rw [if_neg hc, ih (s - 1) (by omega) (by omega)]
      have h2 : (s - 1) - (n : Int) = s - ((n : Int) + 1) := by ring
      rw [h2]

/-- C1 amended: for a fetched list of length L > 3 and a valid start index,
L - 2 successive clicks of next (and likewise of previous) return
`startIndex` to its original value; the cycle the arrows traverse has the
L - 2 positions 0 .. L - 3, so its period is L - 2, not L. -/
theorem pagination_wrap_period (L s : Int) (hL : 3 < L) (h0 : 0 ≤ s) (h3 : s ≤ L - 3) :
    VideoSuggestions.iterNext L (L - 2).toNat s = s ∧
    VideoSuggestions.iterPrev L (L - 2).toNat s = s := by
  have hm : (((L - 2).toNat : Nat) : Int) = L - 2 := Int.toNat_of_nonneg (by omega)
  constructor
  · rw [iterNext_emod L hL _ s h0 h3, hm]
    have h1 : s + (L - 2) = s + (L - 2) * 1 := by ring
    rw [h1, Int.add_mul_emod_self_left, Int.emod_eq_of_lt h0 (by omega)]
  · rw [iterPrev_emod L hL _ s h0 h3, hm]
    have h2 : s - (L - 2) = s + (L - 2) * (-1) := by ring
    rw [h2, Int.add_mul_emod_self_left, Int.emod_eq_of_lt h0 (by omega)]

/-- Witness for the amended C1 at L = 6, startIndex = 1: four clicks of
either arrow return to 1. -/
theorem pagination_wrap_period_witness :
    VideoSuggestions.iterNext 6 4 1 = 1 ∧ VideoSuggestions.iterPrev 6 4 1 = 1 :=
  pagination_wrap_period 6 1 (by decide) (by decide) (by decide)

/-- C9: on a list of length L > 3 and a valid start index, next and previous
are mutually inverse. -/
theorem pagination_inverse (L s : Int) (hL : 3 < L) (h0 : 0 ≤ s) (h3 : s ≤ L - 3) :
    VideoSuggestions.handlePrevious L (VideoSuggestions.handleNext L s) = s ∧
    VideoSuggestions.handleNext L (VideoSuggestions.handlePrevious L s) = s := by
  unfold VideoSuggestions.handleNext VideoSuggestions.handlePrevious VideoSuggestions.VIDEOS_TO_SHOW
  refine ⟨?_, ?_⟩ <;> split_ifs <;> omega

/-- Witness for C9 at L = 10, startIndex = 3. -/
theorem pagination_inverse_witness :
    VideoSuggestions.handlePrevious 10 (VideoSuggestions.handleNext 10 3) = 3 ∧
    VideoSuggestions.handleNext 10 (VideoSuggestions.handlePrevious 10 3) = 3 :=
  pagination_inverse 10 3 (by decide) (by decide) (by decide)

/-- C3 counterexample: a refetch whose `fetch` throws leaves `startIndex` at
its previous value 2 instead of resetting it to 0 (the reset sits inside the
`response.ok` branch, after the array check). -/
theorem refetch_reset_cex :
    (VideoSuggestions.fetchSuggestedVideos ⟨2, [], false⟩
      VideoSuggestions.FetchResult.thrown).startIndex ≠ 0 := by
  decide

/-- C3 amended: a refetch resets `startIndex` to 0 exactly when the fetch
succeeds with an ok response whose body parses to a value with a truthy array
`videos` field; on a non-ok response, an unparseable body, a body without
such a field, or a thrown fetch, `startIndex` is left unchanged. -/
theorem refetch_reset_on_success (s : VideoSuggestions.SuggState)
    (res : VideoSuggestions.FetchResult) :
    (VideoSuggestions.fetchSuggestedVideos s res).startIndex =
      (if VideoSuggestions.fetchDeliversVideos res then 0 else s.startIndex) := by
  cases res with
  | thrown => rfl
  | response ok body =>
    cases ok with
    | false => rfl
    | true =>
      cases body with
      | malformed msg => rfl
      | value data =>
        rcases hv : optChainField data "videos" with _ | v
        · simp [VideoSuggestions.fetchSuggestedVideos, VideoSuggestions.fetchDeliversVideos, hv]
        · cases hb : (v.jsTruthy && VideoSuggestions.isArrayVal v) <;>
            simp [VideoSuggestions.fetchSuggestedVideos, VideoSuggestions.fetchDeliversVideos,
              hv, hb]

/-- The boolean guard of the malformed-question branch is true whenever the
parsed body carries no non-empty string `question`. -/
theorem question_guard_of_lacks (v : JsonValue)
    (h : AskFunction.lacksStringQuestion (.value v) = true) :
    (!jsTruthyOpt (optChainField v "question") || !isStringOpt (optChainField v "question")) =
      true := by
  have h2 : (match optChainField v "question" with
             | some (JsonValue.str s) => decide (s = "")
             | _ => true) = true := h
  rcases hq : optChainField v "question" with _ | w
  · rfl
  · cases w with
    | null => rfl
    | bool b => simp [jsTruthyOpt, isStringOpt]
    | num n => simp [jsTruthyOpt, isStringOpt]
    | str s =>
      rw [hq] at h2
      simp only [decide_eq_true_eq] at h2
      simp [jsTruthyOpt, isStringOpt, JsonValue.jsTruthy, h2]
    | arr l => simp [jsTruthyOpt, isStringOpt]
    | obj fs => simp [jsTruthyOpt, isStringOpt]

/-- C4: any non-OPTIONS request whose body does not carry a string `question`
(missing field, null body, empty string, or a non-string value) is answered
with HTTP 500 and a JSON body carrying an `error` string, and the upstream AI
gateway is never contacted. -/
theorem ask_missing_question_500 (apiKey : Option String) (req : AskFunction.ProxyRequest)
    (upstream : AskFunction.UpstreamResult)
    (hm : req.method ≠ "OPTIONS")
    (hq : AskFunction.lacksStringQuestion req.body = true) :
    (AskFunction.serveHandler apiKey req upstream).status = 500 ∧
    (∃ msg, (AskFunction.serveHandler apiKey req upstream).body =
      some (JsonValue.obj [("error", JsonValue.str msg)])) ∧
    (AskFunction.serveHandler apiKey req upstream).upstreamCalled = false := by
  unfold AskFunction.serveHandler
  rw [if_neg hm]
  rcases hb : req.body with msg | v
  · exact ⟨rfl, ⟨msg, rfl⟩, rfl⟩
  · rw [hb] at hq
    cases v with
    | null => exact ⟨rfl, ⟨_, rfl⟩, rfl⟩
    | bool b => exact ⟨rfl, ⟨_, rfl⟩, rfl⟩
    | num n => exact ⟨rfl, ⟨_, rfl⟩, rfl⟩
    | str s => exact ⟨rfl, ⟨_, rfl⟩, rfl⟩
    | arr l => exact ⟨rfl, ⟨_, rfl⟩, rfl⟩
    | obj fs =>
      have hg := question_guard_of_lacks (.obj fs) hq
      simp only [hg, if_true]
      exact ⟨rfl, ⟨_, rfl⟩, rfl⟩

/-- Witness for C4: the request `{question: 123}` with method POST yields a
500 error response without an upstream call. -/
theorem ask_missing_question_500_witness :
    (AskFunction.serveHandler (some "key")
      ⟨"POST", .value (.obj [("question", .num 123)])⟩ (.netThrow "boom")).status = 500 ∧
    (∃ msg, (AskFunction.serveHandler (some "key")
      ⟨"POST", .value (.obj [("question", .num 123)])⟩ (.netThrow "boom")).body =
        some (JsonValue.obj [("error", JsonValue.str msg)])) ∧
    (AskFunction.serveHandler (some "key")
      ⟨"POST", .value (.obj [("question", .num 123)])⟩ (.netThrow "boom")).upstreamCalled =
      false :=
  ask_missing_question_500 (some "key") ⟨"POST", .value (.obj [("question", .num 123)])⟩
    (.netThrow "boom") (by decide) (by decide)

/-- C5: after a question submission completes, the loading flag is false on
every path, and on every failure path (thrown fetch, non-ok response,
unparseable body, missing or falsy `answer` field) the displayed answer is
left empty. -/
theorem question_submit_loading_cleared (s : IndexPage.PageState) (question : String)
    (res : HttpResult) :
    (IndexPage.handleQuestionSubmit s question res).isLoading = false ∧
    (IndexPage.askSucceeds res = false →
      (IndexPage.handleQuestionSubmit s question res).answer = JsonValue.str "") := by
  constructor
  · rfl
  · intro h
    cases res with
    | thrown msg => rfl
    | response ok status body =>
      cases ok with
      | false => rfl
      | true =>
        cases body with
        | malformed msg => rfl
        | value data =>
          have h2 : jsTruthyOpt (optChainField data "answer") = false := h
          rcases ha : optChainField data "answer" with _ | a
          · simp [IndexPage.handleQuestionSubmit, ha]
          · rw [ha] at h2
            simp only [jsTruthyOpt] at h2
            simp [IndexPage.handleQuestionSubmit, ha, h2]

/-- Witness for C5: a 500 response with body `{detail: "rate limited"}`
leaves the loading flag false and the answer empty. -/
theorem question_submit_loading_cleared_witness :
    (IndexPage.handleQuestionSubmit ⟨JsonValue.str "old", false, "u", "i"⟩ "why"
      (HttpResult.response false 500
        (ParsedJson.value (JsonValue.obj [("detail", JsonValue.str "rate limited")])))).isLoading =
      false ∧
    (IndexPage.handleQuestionSubmit ⟨JsonValue.str "old", false, "u", "i"⟩ "why"
      (HttpResult.response false 500
        (ParsedJson.value (JsonValue.obj [("detail", JsonValue.str "rate limited")])))).answer =
      JsonValue.str "" := by
  have h := question_submit_loading_cleared ⟨JsonValue.str "old", false, "u", "i"⟩ "why"
    (HttpResult.response false 500
      (ParsedJson.value (JsonValue.obj [("detail", JsonValue.str "rate limited")])))
  exact ⟨h.1, h.2 (by decide)⟩

/-- C6: a url submission that fails (thrown fetch, non-ok response,
unparseable body, or a body without a truthy `success` field) leaves both the
active video url and the url input field unchanged. -/
theorem url_submit_failure_frame (s : IndexPage.PageState) (res : HttpResult)
    (ht : jsTrim s.urlInput ≠ "")
    (hv : IndexPage.isValidYouTubeUrl (jsTrim s.urlInput) = true)
    (hf : IndexPage.processSucceeds res = false) :
    (IndexPage.handleUrlChange s res).videoUrl = s.videoUrl ∧
    (IndexPage.handleUrlChange s res).urlInput = s.urlInput := by
  cases res with
  | thrown msg =>
    constructor <;> simp [IndexPage.handleUrlChange, IndexPage.urlSubmitStart, ht, hv]
  | response ok status body =>
    cases ok with
    | false =>
      constructor <;> simp [IndexPage.handleUrlChange, IndexPage.urlSubmitStart, ht, hv]
    | true =>
      cases body with
      | malformed msg =>
        constructor <;> simp [IndexPage.handleUrlChange, IndexPage.urlSubmitStart, ht, hv]
      | value data =>
        have h2 : jsTruthyOpt (optChainField data "success") = false := hf
        constructor <;>
          simp [IndexPage.handleUrlChange, IndexPage.urlSubmitStart, ht, hv, h2]

/-- Witness for C6: a 500 response with body `{detail: "bad link"}` leaves
the active video url and the input field unchanged. -/
theorem url_submit_failure_frame_witness :
    (IndexPage.handleUrlChange
      ⟨JsonValue.str "old", false, "https://youtu.be/abcdefghijk", " https://youtu.be/xyz "⟩
      (HttpResult.response false 500
        (ParsedJson.value (JsonValue.obj [("detail", JsonValue.str "bad link")])))).videoUrl =
      "https://youtu.be/abcdefghijk" ∧
    (IndexPage.handleUrlChange
      ⟨JsonValue.str "old", false, "https://youtu.be/abcdefghijk", " https://youtu.be/xyz "⟩
      (HttpResult.response false 500
        (ParsedJson.value (JsonValue.obj [("detail", JsonValue.str "bad link")])))).urlInput =
      " https://youtu.be/xyz " :=
  url_submit_failure_frame
    ⟨JsonValue.str "old", false, "https://youtu.be/abcdefghijk", " https://youtu.be/xyz "⟩
    (HttpResult.response false 500
      (ParsedJson.value (JsonValue.obj [("detail", JsonValue.str "bad link")])))
    (by decide) (by decide) (by decide)

/-- C10: a valid url submission clears the displayed answer when it starts
(`setAnswer("")` runs before the fetch), the answer is still empty after
completion whatever the outcome, and on a failed submission the active video
is unchanged even though the previous answer is gone. -/
theorem url_submit_clears_answer (s : IndexPage.PageState) (res : HttpResult)
    (ht : jsTrim s.urlInput ≠ "")
    (hv : IndexPage.isValidYouTubeUrl (jsTrim s.urlInput) = true) :
    (IndexPage.urlSubmitStart s).answer = JsonValue.str "" ∧
    (IndexPage.handleUrlChange s res).answer = JsonValue.str "" ∧
    (IndexPage.processSucceeds res = false →
      (IndexPage.handleUrlChange s res).videoUrl = s.videoUrl) := by
  refine ⟨rfl, ?_, ?_⟩
  · cases res with
    | thrown msg => simp [IndexPage.handleUrlChange, IndexPage.urlSubmitStart, ht, hv]
    | response ok status body =>
      cases ok with
      | false => simp [IndexPage.handleUrlChange, IndexPage.urlSubmitStart, ht, hv]
      | true =>
        cases body with
        | malformed msg => simp [IndexPage.handleUrlChange, IndexPage.urlSubmitStart, ht, hv]
        | value data =>
          cases hb : jsTruthyOpt (optChainField data "success") <;>
            simp [IndexPage.handleUrlChange, IndexPage.urlSubmitStart, ht, hv, hb]
  · intro hf
    cases res with
    | thrown msg => simp [IndexPage.handleUrlChange, IndexPage.urlSubmitStart, ht, hv]
    | response ok status body =>
      cases ok with
      | false => simp [IndexPage.handleUrlChange, IndexPage.urlSubmitStart, ht, hv]
      | true =>
        cases body with
        | malformed msg => simp [IndexPage.handleUrlChange, IndexPage.urlSubmitStart, ht, hv]
        | value data =>
          have h2 : jsTruthyOpt (optChainField data "success") = false := hf
          simp [IndexPage.handleUrlChange, IndexPage.urlSubmitStart, ht, hv, h2]

/-- Witness for C10: with a thrown fetch, the answer ends empty and the
active video url is unchanged. -/
theorem url_submit_clears_answer_witness :
    (IndexPage.urlSubmitStart
      ⟨JsonValue.str "prev", false, "https://youtu.be/abcdefghijk", "https://youtu.be/xyz"⟩).answer =
      JsonValue.str "" ∧
    (IndexPage.handleUrlChange
      ⟨JsonValue.str "prev", false, "https://youtu.be/abcdefghijk", "https://youtu.be/xyz"⟩
      (HttpResult.thrown "network error")).answer = JsonValue.str "" ∧
    (IndexPage.processSucceeds (HttpResult.thrown "network error") = false →
      (IndexPage.handleUrlChange
        ⟨JsonValue.str "prev", false, "https://youtu.be/abcdefghijk", "https://youtu.be/xyz"⟩
        (HttpResult.thrown "network error")).videoUrl = "https://youtu.be/abcdefghijk") :=
  url_submit_clears_answer
    ⟨JsonValue.str "prev", false, "https://youtu.be/abcdefghijk", "https://youtu.be/xyz"⟩
    (HttpResult.thrown "network error") (by decide) (by decide)

/-- C8 counterexample: an Enter keypress with the Ctrl modifier held (a
modifier key, but not Shift) still submits, because the code only consults
`shiftKey`; this refutes the claim that Enter with a modifier never
submits. -/
theorem enter_ctrl_submits_cex :
    QuestionInput.hasModifier ⟨"Enter", false, true, false, false⟩ = true ∧
    (QuestionInput.handleKeyPress false ⟨"hi"⟩ ⟨"Enter", false, true, false, false⟩).2 =
      some "hi" :=
  ⟨by decide, by decide⟩

/-- C8 amended: the input submits the trimmed question and clears its field
exactly when Enter is pressed without Shift (or the explicit submit action
runs) while the trimmed question is non-empty and no request is loading;
Enter with Shift held does not submit. -/
theorem question_submit_shift_rule (isLoading : Bool) (s : QuestionInput.InputState)
    (e : QuestionInput.KeyEvent) :
    ((QuestionInput.handleKeyPress isLoading s e).2 ≠ none ↔
      (e.key = "Enter" ∧ e.shiftKey = false ∧ jsTrim s.question ≠ "" ∧ isLoading = false)) ∧
    ((QuestionInput.handleKeyPress isLoading s e).2 ≠ none →
      QuestionInput.handleKeyPress isLoading s e = (⟨""⟩, some (jsTrim s.question))) ∧
    ((QuestionInput.handleSubmit isLoading s).2 ≠ none ↔
      (jsTrim s.question ≠ "" ∧ isLoading = false)) ∧
    ((QuestionInput.handleSubmit isLoading s).2 ≠ none →
      QuestionInput.handleSubmit isLoading s = (⟨""⟩, some (jsTrim s.question))) := by
  unfold QuestionInput.handleKeyPress QuestionInput.handleSubmit
  by_cases hk : e.key = "Enter" <;> by_cases hs : e.shiftKey = true <;>
    by_cases hq : jsTrim s.question = "" <;> by_cases hl : isLoading = true <;>
    simp [hk, hs, hq, hl, Bool.not_eq_true]

/-- Witness for the amended C8: plain Enter on the non-empty question "hi"
submits it and clears the field. -/
theorem question_submit_shift_rule_witness :
    QuestionInput.handleKeyPress false ⟨"hi"⟩ ⟨"Enter", false, false, false, false⟩ =
      (⟨""⟩, some "hi") := by
  have h := question_submit_shift_rule false ⟨"hi"⟩ ⟨"Enter", false, false, false, false⟩
  exact h.2.1 (by decide)
